import Mathlib

/-!
Shallow embedding of the junit-airgap native interception layer
(src/native/src/socket_interceptor.cpp, src/native/src/dns_interceptor.cpp,
src/native/src/agent.cpp).

The JNI environment is modelled as a state carrying the pending managed
exception and a trace of the observable events of one wrapper invocation
(policy calls into managed code, native string releases, calls to the
original function, platform-encoding probes).  The managed-side policy
object (NetworkBlockerContext) is an oracle: `checkConnection` either
raises a violation or returns silently, `isExplicitlyBlocked` and
`hasActiveConfiguration` return booleans.  Java strings extracted from the
connection target are modelled as their string value together with a flag
recording whether GetStringUTFChars succeeded on them (the C code keeps
the jstring and the extracted UTF chars as separate nullable values).
`EnsurePlatformEncodingReady` (agent.cpp) is a bounded retry loop whose
only observable outcome at its call sites is success or failure; it is
abstracted to that boolean outcome, passed in as the per-thread state.
-/

/-- Kinds of managed exceptions a wrapper can leave pending. -/
inductive JException where
  | violation (host : String) (port : Int)
  | internalError
  | unsupportedOperation
  deriving DecidableEq, Repr

/-- Observable events of one wrapper invocation. -/
inductive Event where
  | policyCheckConnection (host : String) (port : Int) (caller : Option String)
  | policyIsExplicitlyBlocked (host : String)
  | policyHasActiveConfiguration
  | releaseString (s : String)
  | callOriginal
  | encodingProbe (ok : Bool)
  deriving DecidableEq, Repr

/-- JNI-environment state during a wrapper call: the pending exception and
the trace of observable events so far. -/
structure Env where
  pending : Option JException
  trace : List Event
  deriving DecidableEq, Repr

/-- The environment at entry of a native method: no pending exception,
empty trace. -/
def env0 : Env := ⟨none, []⟩

/-- The managed policy oracle (NetworkBlockerContext decision methods).
`checkConnection h p = true` means the managed method raises a violation
for that host and port. -/
structure Policy where
  checkConnection : String → Int → Bool
  isExplicitlyBlocked : String → Bool
  hasActiveConfiguration : Bool

/-- The agent globals a wrapper reads: the readiness flag
`g_vm_init_complete`, whether the NetworkBlockerContext class and each of
the three method IDs are cached (agent.cpp accessors), and the two cached
caller strings. -/
structure AgentGlobals where
  vmInitComplete : Bool
  contextClass : Bool
  checkConnectionMethod : Bool
  isExplicitlyBlockedMethod : Bool
  hasActiveConfigMethod : Bool
  callerAgentString : Option String
  callerDnsString : Option String

/-- A Java string reference together with whether GetStringUTFChars
succeeds on it (the C code checks the jstring and the extracted chars
separately). -/
structure JStr where
  value : String
  utfOk : Bool
  deriving DecidableEq, Repr

/-- The UTF chars of an extracted Java string: present exactly when the
jstring is non-null and GetStringUTFChars succeeded. -/
def jstrChars : Option JStr → Option String
  | some js => if js.utfOk then some js.value else none
  | none => none

/-- CallStaticVoidMethod on checkConnection: records the call and sets the
pending violation when the managed method raises. -/
def callCheckConnection (p : Policy) (host : String) (port : Int)
    (caller : Option String) (e : Env) : Env :=
  let e1 : Env := { e with trace := e.trace ++ [Event.policyCheckConnection host port caller] }
  if p.checkConnection host port then
    { e1 with pending := some (JException.violation host port) }
  else e1

/-- CallStaticBooleanMethod on hasActiveConfiguration. -/
def callHasActiveConfiguration (p : Policy) (e : Env) : Bool × Env :=
  (p.hasActiveConfiguration, { e with trace := e.trace ++ [Event.policyHasActiveConfiguration] })

/-- isHostExplicitlyBlocked from socket_interceptor.cpp: returns false
without any managed call when the jstring or its UTF chars are null,
otherwise calls the managed isExplicitlyBlocked. -/
def isHostExplicitlyBlocked (p : Policy) (host : Option JStr) (e : Env) : Bool × Env :=
  match jstrChars host with
  | none => (false, e)
  | some h =>
      (p.isExplicitlyBlocked h,
       { e with trace := e.trace ++ [Event.policyIsExplicitlyBlocked h] })

/-- tryAllowConnection from socket_interceptor.cpp: checks the IP first,
clears the violation and retries with the hostname, re-raises on the IP
when no hostname is available.  Returns true when the connection is
blocked.  The string arguments are the (jstring, UTF chars) pairs
collapsed to the extracted value, present exactly when both are
non-null. -/
def tryAllowConnection (p : Policy) (ip hostname : Option String)
    (port : Int) (caller : Option String) (e : Env) : Bool × Env :=
  match ip with
  | some ipS =>
      let e1 := callCheckConnection p ipS port caller e
      if e1.pending.isSome = false then
        (false, e1)
      else
        let e2 : Env := { e1 with pending := none }
        match hostname with
        | some hS =>
            let e3 := callCheckConnection p hS port caller e2
            if e3.pending.isSome = false then (false, e3) else (true, e3)
        | none =>
            (true, callCheckConnection p ipS port caller e2)
  | none =>
      match hostname with
      | some hS =>
          let e1 := callCheckConnection p hS port caller e
          if e1.pending.isSome then (true, e1) else (false, e1)
      | none => (false, e)

/-- The connection target as the connect wrapper sees it: the results of
calling getHostAddress and getHostName on the remote InetAddress.  The
standard-library lookups (FindClass on java.net.InetAddress and the two
GetMethodID calls) are modelled as succeeding. -/
structure RemoteInfo where
  ip : Option JStr
  host : Option JStr
  deriving DecidableEq, Repr

/-- The string-extraction phase of wrapped_Net_connect0 (lines 218 to 282):
the IP string is extracted first; the hostname is extracted only when the
IP UTF extraction succeeded.  Returns (hostname, ip) as in the source
variable order. -/
def extractStrings : Option RemoteInfo → Option JStr × Option JStr
  | none => (none, none)
  | some r =>
      let ipOk := (jstrChars r.ip).isSome
      ((if ipOk then r.host else none), r.ip)

/-- Result of the connect wrapper: the original was called and its result
returned; or -2 was returned because the original pointer is absent; or
-2 was returned on the block path (after the policy checks, with the
check for a pending exception passing). -/
inductive ConnectOutcome where
  | forwarded (r : Int)
  | errNoOriginal
  | errBlocked
  deriving DecidableEq, Repr

/-- Forwarding to the original connect, or returning -2 when it is
absent (the repeated `if (original_Net_connect0 != nullptr)` blocks). -/
def forwardConnect (original : Option Int) (e : Env) : ConnectOutcome × Env :=
  match original with
  | some r => (ConnectOutcome.forwarded r, { e with trace := e.trace ++ [Event.callOriginal] })
  | none => (ConnectOutcome.errNoOriginal, e)

/-- The raise step of the explicit-block branch (lines 312 to 320): call
checkConnection to throw the exception, with the hostname jstring when it
is non-null, else the IP jstring, else nothing; connectionBlocked is set
either way. -/
def explicitRaise (p : Policy) (hostJ ipJ : Option JStr) (port : Int)
    (caller : Option String) (e : Env) : Bool × Env :=
  match hostJ with
  | some hs => (true, callCheckConnection p hs.value port caller e)
  | none =>
      match ipJ with
      | some ips => (true, callCheckConnection p ips.value port caller e)
      | none => (true, e)

/-- The decision block of wrapped_Net_connect0 (lines 291 to 333):
explicit-block check on hostname and IP first; when either is explicitly
blocked, raise via checkConnection (explicitRaise); otherwise run the
allowlist phase (tryAllowConnection).  Returns the connectionBlocked
flag. -/
def connectDecision (g : AgentGlobals) (p : Policy)
    (hostJ ipJ : Option JStr) (port : Int) (e : Env) : Bool × Env :=
  if g.checkConnectionMethod && g.isExplicitlyBlockedMethod then
    let r1 := isHostExplicitlyBlocked p hostJ e
    let r2 := isHostExplicitlyBlocked p ipJ r1.2
    if r1.1 || r2.1 then
      explicitRaise p hostJ ipJ port g.callerAgentString r2.2
    else
      tryAllowConnection p (jstrChars ipJ) (jstrChars hostJ) port g.callerAgentString r2.2
  else
    (false, e)

/-- Release of the extracted strings (lines 336 to 341): each string is
released when both the jstring and its UTF chars are non-null. -/
def releaseStrings (hostJ ipJ : Option JStr) (e : Env) : Env :=
  let e1 : Env :=
    match jstrChars hostJ with
    | some h => { e with trace := e.trace ++ [Event.releaseString h] }
    | none => e
  match jstrChars ipJ with
  | some i => { e1 with trace := e1.trace ++ [Event.releaseString i] }
  | none => e1

/-- The intercepting tail of wrapped_Net_connect0 (lines 213 to 357):
string extraction, the decision block (run only when the remote is
non-null), string release, then the block check — return -2 only when the
connectionBlocked flag is set and an exception is pending, else forward
to the original connect. -/
def connectMain (g : AgentGlobals) (p : Policy) (remote : Option RemoteInfo)
    (port : Int) (original : Option Int) (e : Env) : ConnectOutcome × Env :=
  let ex := extractStrings remote
  let dec :=
    match remote with
    | some _ => connectDecision g p ex.1 ex.2 port e
    | none => (false, e)
  let e2 := releaseStrings ex.1 ex.2 dec.2
  if dec.1 && e2.pending.isSome then
    (ConnectOutcome.errBlocked, e2)
  else
    forwardConnect original e2

/-- wrapped_Net_connect0 from socket_interceptor.cpp.  `original` is the
stored original function pointer, abstracted to the result it would
return; `encodingReady` is the outcome EnsurePlatformEncodingReady would
have on this thread (the connect wrapper never consults it). -/
def wrapped_Net_connect0 (g : AgentGlobals) (p : Policy)
    (remote : Option RemoteInfo) (port : Int)
    (original : Option Int) (_encodingReady : Bool) : ConnectOutcome × Env :=
  -- Check 1: VM_INIT must be complete
  if g.vmInitComplete = false then forwardConnect original env0
  -- Check 2: NetworkBlockerContext must be registered
  else if g.contextClass = false then forwardConnect original env0
  -- Check 3: active configuration (method absent means forward)
  else if g.hasActiveConfigMethod = false then forwardConnect original env0
  else
    let rc := callHasActiveConfiguration p env0
    if rc.1 = false then forwardConnect original rc.2
    else
      connectMain g p remote port original rc.2

/-- Result of the DNS wrapper: the original resolver was called and its
result returned verbatim; or null was returned with no error because the
original pointer is absent on an early path; or an InternalError was
raised after a failed per-thread encoding probe; or a policy violation is
left pending; or an UnsupportedOperationException was raised for a
missing original pointer on the fully intercepting path. -/
inductive DnsOutcome where
  | forwarded (r : Int)
  | nullNoOriginal
  | errEncoding
  | blockedNull
  | errUnsupported
  deriving DecidableEq, Repr

/-- Forwarding to the original resolver, or silently returning null when
it is absent (the early `if (original != nullptr)` blocks of
dns_interceptor.cpp). -/
def forwardDns (original : Option Int) (e : Env) : DnsOutcome × Env :=
  match original with
  | some r => (DnsOutcome.forwarded r, { e with trace := e.trace ++ [Event.callOriginal] })
  | none => (DnsOutcome.nullNoOriginal, e)

/-- The tail of wrapped_lookupAllHostAddr (lines 145 to 208): hostname
extraction, the checkConnection call, string release, and the forward to
the original resolver with an UnsupportedOperationException when it is
absent. -/
def dnsCheckAndForward (g : AgentGlobals) (p : Policy)
    (hostname : Option JStr) (original : Option Int) (e : Env) : DnsOutcome × Env :=
  let hostC := jstrChars hostname
  match hostname, hostC with
  | some js, some h =>
      if g.checkConnectionMethod then
        let e1 := callCheckConnection p h (-1) g.callerDnsString e
        if e1.pending.isSome then
          (DnsOutcome.blockedNull,
           { e1 with trace := e1.trace ++ [Event.releaseString js.value] })
        else
          let e2 : Env := { e1 with trace := e1.trace ++ [Event.releaseString js.value] }
          match original with
          | some r => (DnsOutcome.forwarded r, { e2 with trace := e2.trace ++ [Event.callOriginal] })
          | none =>
              (DnsOutcome.errUnsupported,
               { e2 with pending := some JException.unsupportedOperation })
      else
        let e2 : Env := { e with trace := e.trace ++ [Event.releaseString js.value] }
        match original with
        | some r => (DnsOutcome.forwarded r, { e2 with trace := e2.trace ++ [Event.callOriginal] })
        | none =>
            (DnsOutcome.errUnsupported,
             { e2 with pending := some JException.unsupportedOperation })
  | _, _ =>
      match original with
      | some r => (DnsOutcome.forwarded r, { e with trace := e.trace ++ [Event.callOriginal] })
      | none =>
          (DnsOutcome.errUnsupported,
           { e with pending := some JException.unsupportedOperation })

/-- wrapped_lookupAllHostAddr from src/native/src/dns_interceptor.cpp.
`encodingReady` is the outcome of EnsurePlatformEncodingReady on this
thread; `original` is the stored original resolver abstracted to the
result it would return. -/
def wrapped_lookupAllHostAddr (g : AgentGlobals) (p : Policy)
    (hostname : Option JStr) (original : Option Int)
    (encodingReady : Bool) : DnsOutcome × Env :=
  -- Check 1: VM_INIT must be complete
  if g.vmInitComplete = false then forwardDns original env0
  -- Check 2: NetworkBlockerContext must be registered
  else if g.contextClass = false then forwardDns original env0
  else
    -- Check 3: active configuration, when the method is available
    if g.hasActiveConfigMethod then
      let rc := callHasActiveConfiguration p env0
      if rc.1 = false then
        let e1 : Env := { rc.2 with trace := rc.2.trace ++ [Event.encodingProbe encodingReady] }
        if encodingReady = false then
          (DnsOutcome.errEncoding, { e1 with pending := some JException.internalError })
        else
          forwardDns original e1
      else
        dnsCheckAndForward g p hostname original rc.2
    else
      dnsCheckAndForward g p hostname original env0

/-- The cached Decision Bridge fields of agent.cpp: the global reference
to the NetworkBlockerContext class and the three static method IDs.
Handles are modelled as Nat identifiers. -/
structure BridgeState where
  contextClass : Option Nat
  checkConnectionMethod : Option Nat
  isExplicitlyBlockedMethod : Option Nat
  hasActiveConfigMethod : Option Nat
  deriving DecidableEq, Repr

/-- The unregistered bridge state (all globals start as nullptr). -/
def BridgeState.initial : BridgeState := ⟨none, none, none, none⟩

/-- All four bridge fields populated. -/
def BridgeState.fullyPopulated (s : BridgeState) : Prop :=
  s.contextClass.isSome ∧ s.checkConnectionMethod.isSome ∧
    s.isExplicitlyBlockedMethod.isSome ∧ s.hasActiveConfigMethod.isSome

/-- All four bridge fields cleared. -/
def BridgeState.fullyCleared (s : BridgeState) : Prop :=
  s.contextClass = none ∧ s.checkConnectionMethod = none ∧
    s.isExplicitlyBlockedMethod = none ∧ s.hasActiveConfigMethod = none

instance (s : BridgeState) : Decidable s.fullyPopulated := by
  unfold BridgeState.fullyPopulated; infer_instance

instance (s : BridgeState) : Decidable s.fullyCleared := by
  unfold BridgeState.fullyCleared; infer_instance

/-- The JVM's global-reference table, as the wrapper can observe it:
the list of live global references in creation order and the next fresh
id. -/
structure RefHeap where
  live : List Nat
  next : Nat
  deriving DecidableEq, Repr

/-- The empty global-reference heap. -/
def RefHeap.empty : RefHeap := ⟨[], 0⟩

/-- NewGlobalRef: returns a fresh reference id when it succeeds
(`ok = true`), nullptr otherwise. -/
def newGlobalRef (h : RefHeap) (ok : Bool) : Option Nat × RefHeap :=
  if ok then (some h.next, ⟨h.live ++ [h.next], h.next + 1⟩) else (none, h)

/-- DeleteGlobalRef: removes the reference from the live set. -/
def deleteGlobalRef (h : RefHeap) (r : Nat) : RefHeap :=
  { h with live := h.live.erase r }

/-- What GetStaticMethodID yields on the policy class passed to
registerWithAgent: method IDs are a deterministic function of the class,
absent when resolution fails. -/
structure ClassSpec where
  checkConnectionId : Option Nat
  isExplicitlyBlockedId : Option Nat
  hasActiveConfigId : Option Nat
  deriving DecidableEq, Repr

/-- registerWithAgent from agent.cpp (the JNI entry point
Java_..._NetworkBlockerContext_registerWithAgent): creates a global
reference to the class, resolves the three method IDs in order, and on a
resolution failure deletes the new global reference and clears the class
field together with the method fields assigned so far in this call.
`refOk` is whether NewGlobalRef succeeds. -/
def registerWithAgent (s : BridgeState) (h : RefHeap) (c : ClassSpec)
    (refOk : Bool) : BridgeState × RefHeap :=
  let rr := newGlobalRef h refOk
  let s1 : BridgeState := { s with contextClass := rr.1 }
  match rr.1 with
  | none => (s1, rr.2)
  | some r =>
      let s2 : BridgeState := { s1 with checkConnectionMethod := c.checkConnectionId }
      match c.checkConnectionId with
      | none => ({ s2 with contextClass := none }, deleteGlobalRef rr.2 r)
      | some _ =>
          let s3 : BridgeState := { s2 with isExplicitlyBlockedMethod := c.isExplicitlyBlockedId }
          match c.isExplicitlyBlockedId with
          | none =>
              ({ s3 with contextClass := none, checkConnectionMethod := none },
               deleteGlobalRef rr.2 r)
          | some _ =>
              let s4 : BridgeState := { s3 with hasActiveConfigMethod := c.hasActiveConfigId }
              match c.hasActiveConfigId with
              | none =>
                  ({ s4 with contextClass := none, checkConnectionMethod := none,
                             isExplicitlyBlockedMethod := none },
                   deleteGlobalRef rr.2 r)
              | some _ => (s4, rr.2)

/-! Helper lemmas about the event traces of the decision helpers: each
stage only appends policy-call, release and probe events, never a
callOriginal event. -/

theorem callCheckConnection_trace (p : Policy) (hS : String) (port : Int)
    (caller : Option String) (e : Env) :
    (callCheckConnection p hS port caller e).trace
      = e.trace ++ [Event.policyCheckConnection hS port caller] := by
  unfold callCheckConnection
  split <;> rfl

theorem callCheckConnection_noCallOriginal (p : Policy) (hS : String) (port : Int)
    (caller : Option String) (e : Env) (h : Event.callOriginal ∉ e.trace) :
    Event.callOriginal ∉ (callCheckConnection p hS port caller e).trace := by
  rw [callCheckConnection_trace]
  simp [h]

theorem isHostExplicitlyBlocked_pending (p : Policy) (host : Option JStr) (e : Env) :
    (isHostExplicitlyBlocked p host e).2.pending = e.pending := by
  unfold isHostExplicitlyBlocked
  cases h : jstrChars host <;> rfl

theorem isHostExplicitlyBlocked_noCallOriginal (p : Policy) (host : Option JStr) (e : Env)
    (h : Event.callOriginal ∉ e.trace) :
    Event.callOriginal ∉ (isHostExplicitlyBlocked p host e).2.trace := by
  unfold isHostExplicitlyBlocked
  cases hj : jstrChars host <;> simp [h]

theorem tryAllowConnection_noCallOriginal (p : Policy) (ip host : Option String)
    (port : Int) (caller : Option String) (e : Env)
    (h : Event.callOriginal ∉ e.trace) :
    Event.callOriginal ∉ (tryAllowConnection p ip host port caller e).2.trace := by
  unfold tryAllowConnection
  rcases ip with _ | ipS <;> rcases host with _ | hS
  · exact h
  · dsimp only
    split
    · rw [callCheckConnection_trace]; simp [h]
    · rw [callCheckConnection_trace]; simp [h]
  · dsimp only
    split
    · rw [callCheckConnection_trace]; simp [h]
    · rw [callCheckConnection_trace, callCheckConnection_trace]; simp [h]
  · dsimp only
    split
    · rw [callCheckConnection_trace]; simp [h]
    · split
      · rw [callCheckConnection_trace, callCheckConnection_trace]; simp [h]
      · rw [callCheckConnection_trace, callCheckConnection_trace]; simp [h]

theorem explicitRaise_noCallOriginal (p : Policy) (hostJ ipJ : Option JStr)
    (port : Int) (caller : Option String) (e : Env)
    (h : Event.callOriginal ∉ e.trace) :
    Event.callOriginal ∉ (explicitRaise p hostJ ipJ port caller e).2.trace := by
  unfold explicitRaise
  rcases hostJ with _ | hs
  · rcases ipJ with _ | ips
    · exact h
    · exact callCheckConnection_noCallOriginal p ips.value port caller e h
  · exact callCheckConnection_noCallOriginal p hs.value port caller e h

theorem connectDecision_noCallOriginal (g : AgentGlobals) (p : Policy)
    (hostJ ipJ : Option JStr) (port : Int) (e : Env)
    (h : Event.callOriginal ∉ e.trace) :
    Event.callOriginal ∉ (connectDecision g p hostJ ipJ port e).2.trace := by
  have h1 := isHostExplicitlyBlocked_noCallOriginal p hostJ e h
  have h2 := isHostExplicitlyBlocked_noCallOriginal p ipJ
    (isHostExplicitlyBlocked p hostJ e).2 h1
  unfold connectDecision
  split
  · dsimp only
    split
    · exact explicitRaise_noCallOriginal p hostJ ipJ port g.callerAgentString _ h2
    · exact tryAllowConnection_noCallOriginal p _ _ port _ _ h2
  · exact h

theorem releaseStrings_noCallOriginal (hostJ ipJ : Option JStr) (e : Env)
    (h : Event.callOriginal ∉ e.trace) :
    Event.callOriginal ∉ (releaseStrings hostJ ipJ e).trace := by
  unfold releaseStrings
  cases hh : jstrChars hostJ <;> cases hi : jstrChars ipJ <;> simp [h]

/-! Claim theorems. -/

/-- Concrete policy for the C1 failing input: `example.com` is allowed
(checkConnection raises for every other host), and the literal IP
`1.2.3.4` is in the explicit block list. -/
def policyIpBlockedHostAllowed : Policy :=
  ⟨fun h _ => !(h == "example.com"), fun h => h == "1.2.3.4", true⟩

/-- Agent globals after readiness with a fully registered bridge and the
two cached caller strings. -/
def readyGlobals : AgentGlobals :=
  ⟨true, true, true, true, true, some "Native-Agent", some "Native-DNS"⟩

/-- C1 (code bug): connecting to the explicitly blocked IP `1.2.3.4`
whose reverse-DNS hostname `example.com` is present and allowed, the
wrapper raises via the hostname, checkConnection raises nothing, so no
exception is pending and the connection is forwarded to the original
connect — the explicit IP block is bypassed, although both the claim and
the code's own comment block say the connection is blocked regardless of
allowlist membership.  The trace shows isExplicitlyBlocked answered true
for the IP and that checkConnection was called only with the hostname. -/
theorem C1_explicit_ip_block_bypassed :
    wrapped_Net_connect0 readyGlobals policyIpBlockedHostAllowed
        (some ⟨some ⟨"1.2.3.4", true⟩, some ⟨"example.com", true⟩⟩) 443 (some 0) true
      = (ConnectOutcome.forwarded 0,
         ⟨none,
          [Event.policyHasActiveConfiguration,
           Event.policyIsExplicitlyBlocked "example.com",
           Event.policyIsExplicitlyBlocked "1.2.3.4",
           Event.policyCheckConnection "example.com" 443 (some "Native-Agent"),
           Event.releaseString "example.com",
           Event.releaseString "1.2.3.4",
           Event.callOriginal]⟩) := by
  decide

/-- C2 (confirmed): in the allowlist phase with both an IP string and a
hostname string extracted, checkConnection is attempted with the IP first
(the first event appended to the trace is the IP check); the connection
is allowed (blocked flag false) exactly when the IP check raises no
violation, or the hostname check raises none after the IP violation is
cleared — equivalently, it is blocked exactly when both raise; and when
it is allowed no violation is left pending. -/
theorem C2_allowlist_ip_first (p : Policy) (ip host : String) (port : Int)
    (caller : Option String) (e : Env) (h : e.pending = none) :
    (tryAllowConnection p (some ip) (some host) port caller e).1
        = (p.checkConnection ip port && p.checkConnection host port)
    ∧ (∃ rest, (tryAllowConnection p (some ip) (some host) port caller e).2.trace
        = e.trace ++ Event.policyCheckConnection ip port caller :: rest)
    ∧ ((tryAllowConnection p (some ip) (some host) port caller e).1 = false →
        (tryAllowConnection p (some ip) (some host) port caller e).2.pending = none) := by
  unfold tryAllowConnection
  cases hip : p.checkConnection ip port with
  | false =>
      simp [callCheckConnection, hip, h]
  | true =>
      cases hh : p.checkConnection host port with
      | false => simp [callCheckConnection, hip, hh, h]
      | true => simp [callCheckConnection, hip, hh, h]

/-- Witness for C2 at a concrete policy blocking the IP and allowing the
hostname, starting from the entry environment. -/
theorem C2_allowlist_ip_first_witness :
    env0.pending = none
    ∧ (tryAllowConnection ⟨fun h _ => !(h == "good.org"), fun _ => false, true⟩
        (some "9.9.9.9") (some "good.org") 80 (some "Native-Agent") env0).1
        = ((fun (h : String) (_ : Int) => !(h == "good.org")) "9.9.9.9" 80
            && (fun (h : String) (_ : Int) => !(h == "good.org")) "good.org" 80) := by
  refine ⟨rfl, ?_⟩
  exact (C2_allowlist_ip_first ⟨fun h _ => !(h == "good.org"), fun _ => false, true⟩
    "9.9.9.9" "good.org" 80 (some "Native-Agent") env0 rfl).1

/-- C3 (confirmed): before the readiness flag g_vm_init_complete is set,
or while the NetworkBlockerContext class is not registered, both wrappers
forward to the original function with no other observable event — in
particular no policy method (checkConnection, isExplicitlyBlocked,
hasActiveConfiguration) is invoked — and return the original result
unmodified. -/
theorem C3_preready_passthrough (g : AgentGlobals) (p : Policy)
    (remote : Option RemoteInfo) (port : Int) (hostname : Option JStr)
    (r : Int) (enc : Bool)
    (hg : g.vmInitComplete = false ∨ g.contextClass = false) :
    wrapped_Net_connect0 g p remote port (some r) enc
        = (ConnectOutcome.forwarded r, ⟨none, [Event.callOriginal]⟩)
    ∧ wrapped_lookupAllHostAddr g p hostname (some r) enc
        = (DnsOutcome.forwarded r, ⟨none, [Event.callOriginal]⟩) := by
  cases hv : g.vmInitComplete with
  | false =>
      simp [wrapped_Net_connect0, wrapped_lookupAllHostAddr, forwardConnect, forwardDns,
        env0, hv]
  | true =>
      rcases hg with hg | hg
      · rw [hv] at hg; cases hg
      · simp [wrapped_Net_connect0, wrapped_lookupAllHostAddr, forwardConnect, forwardDns,
          env0, hv, hg]

/-- Witness for C3: an unregistered bridge after VM init, with a concrete
remote and hostname. -/
theorem C3_preready_passthrough_witness :
    ((⟨true, false, false, false, false, none, none⟩ : AgentGlobals).vmInitComplete = false
        ∨ (⟨true, false, false, false, false, none, none⟩ : AgentGlobals).contextClass = false)
    ∧ wrapped_Net_connect0 ⟨true, false, false, false, false, none, none⟩
        policyIpBlockedHostAllowed (some ⟨some ⟨"1.2.3.4", true⟩, none⟩) 443 (some 0) true
        = (ConnectOutcome.forwarded 0, ⟨none, [Event.callOriginal]⟩) := by
  refine ⟨Or.inr rfl, ?_⟩
  exact (C3_preready_passthrough ⟨true, false, false, false, false, none, none⟩
    policyIpBlockedHostAllowed (some ⟨some ⟨"1.2.3.4", true⟩, none⟩) 443
    (some ⟨"x", true⟩) 0 true (Or.inr rfl)).1

/-- Policy with no active configuration (hasActiveConfiguration returns
false); the decision methods would block everything if consulted. -/
def policyNoActiveConfig : Policy := ⟨fun _ _ => true, fun _ => true, false⟩

/-- C4 (counterexample): after readiness with the bridge registered and
hasActiveConfiguration false, on a thread whose per-thread encoding probe
would fail, the connect wrapper performs no readiness probe at all and
forwards to the original connect instead of signalling a
transient-initialization error: the outcome is the original result, the
trace contains no probe event, and no error is pending. -/
theorem C4_connect_skips_probe_counterexample :
    (wrapped_Net_connect0 readyGlobals policyNoActiveConfig none 80 (some 5) false).1
        = ConnectOutcome.forwarded 5
    ∧ Event.encodingProbe false
        ∉ (wrapped_Net_connect0 readyGlobals policyNoActiveConfig none 80 (some 5) false).2.trace
    ∧ Event.encodingProbe true
        ∉ (wrapped_Net_connect0 readyGlobals policyNoActiveConfig none 80 (some 5) false).2.trace
    ∧ (wrapped_Net_connect0 readyGlobals policyNoActiveConfig none 80 (some 5) false).2.pending
        = none := by
  decide

/-- C4 (amended): after readiness with the bridge registered, when
hasActiveConfiguration returns false neither wrapper ever invokes
checkConnection; the DNS wrapper performs the per-thread readiness probe
and, when the probe fails, raises an InternalError without forwarding to
the original resolver, and when it succeeds forwards after the probe;
the connect wrapper forwards directly to the original connect with no
probe. -/
theorem C4_no_config_fast_path (g : AgentGlobals) (p : Policy)
    (remote : Option RemoteInfo) (hostname : Option JStr) (port : Int)
    (r : Int) (enc : Bool)
    (h1 : g.vmInitComplete = true) (h2 : g.contextClass = true)
    (h3 : g.hasActiveConfigMethod = true) (h4 : p.hasActiveConfiguration = false) :
    wrapped_Net_connect0 g p remote port (some r) enc
        = (ConnectOutcome.forwarded r,
           ⟨none, [Event.policyHasActiveConfiguration, Event.callOriginal]⟩)
    ∧ wrapped_lookupAllHostAddr g p hostname (some r) false
        = (DnsOutcome.errEncoding,
           ⟨some JException.internalError,
            [Event.policyHasActiveConfiguration, Event.encodingProbe false]⟩)
    ∧ wrapped_lookupAllHostAddr g p hostname (some r) true
        = (DnsOutcome.forwarded r,
           ⟨none, [Event.policyHasActiveConfiguration, Event.encodingProbe true,
                   Event.callOriginal]⟩) := by
  refine ⟨?_, ?_, ?_⟩ <;>
    simp [wrapped_Net_connect0, wrapped_lookupAllHostAddr, forwardConnect, forwardDns,
      callHasActiveConfiguration, env0, h1, h2, h3, h4]

/-- Witness for C4 at the ready globals and the no-configuration policy. -/
theorem C4_no_config_fast_path_witness :
    readyGlobals.vmInitComplete = true
    ∧ policyNoActiveConfig.hasActiveConfiguration = false
    ∧ wrapped_lookupAllHostAddr readyGlobals policyNoActiveConfig (some ⟨"a.b", true⟩)
        (some 3) false
        = (DnsOutcome.errEncoding,
           ⟨some JException.internalError,
            [Event.policyHasActiveConfiguration, Event.encodingProbe false]⟩) := by
  refine ⟨rfl, rfl, ?_⟩
  exact (C4_no_config_fast_path readyGlobals policyNoActiveConfig none (some ⟨"a.b", true⟩)
    80 3 true rfl rfl rfl rfl).2.1

/-- C5 (confirmed): after readiness with the bridge registered and an
active configuration, a DNS call with a non-null hostname whose UTF
extraction succeeds invokes checkConnection exactly once, with the
hostname, port -1 and the cached DNS caller string; when the managed
method raises, the violation stays pending at return (propagates
unsuppressed) and the hostname string is released before returning; when
it does not raise, the hostname string is released and the original
resolver is called, its result returned verbatim. -/
theorem C5_dns_check_and_propagate (g : AgentGlobals) (p : Policy) (js : JStr)
    (r : Int) (enc : Bool)
    (h1 : g.vmInitComplete = true) (h2 : g.contextClass = true)
    (h3 : g.hasActiveConfigMethod = true) (h4 : g.checkConnectionMethod = true)
    (h5 : p.hasActiveConfiguration = true) (h6 : js.utfOk = true) :
    (p.checkConnection js.value (-1) = true →
      wrapped_lookupAllHostAddr g p (some js) (some r) enc
        = (DnsOutcome.blockedNull,
           ⟨some (JException.violation js.value (-1)),
            [Event.policyHasActiveConfiguration,
             Event.policyCheckConnection js.value (-1) g.callerDnsString,
             Event.releaseString js.value]⟩))
    ∧ (p.checkConnection js.value (-1) = false →
      wrapped_lookupAllHostAddr g p (some js) (some r) enc
        = (DnsOutcome.forwarded r,
           ⟨none,
            [Event.policyHasActiveConfiguration,
             Event.policyCheckConnection js.value (-1) g.callerDnsString,
             Event.releaseString js.value,
             Event.callOriginal]⟩)) := by
  constructor <;> intro hc <;>
    simp [wrapped_lookupAllHostAddr, dnsCheckAndForward, callHasActiveConfiguration,
      callCheckConnection, jstrChars, forwardDns, env0, h1, h2, h3, h4, h5, h6, hc]

/-- Witness for C5: a blocked hostname under a block-everything policy. -/
theorem C5_dns_check_and_propagate_witness :
    (⟨fun _ _ => true, fun _ => true, true⟩ : Policy).checkConnection "evil.com" (-1) = true
    ∧ wrapped_lookupAllHostAddr readyGlobals ⟨fun _ _ => true, fun _ => true, true⟩
        (some ⟨"evil.com", true⟩) (some 9) true
        = (DnsOutcome.blockedNull,
           ⟨some (JException.violation "evil.com" (-1)),
            [Event.policyHasActiveConfiguration,
             Event.policyCheckConnection "evil.com" (-1) readyGlobals.callerDnsString,
             Event.releaseString "evil.com"]⟩) := by
  refine ⟨rfl, ?_⟩
  exact (C5_dns_check_and_propagate readyGlobals ⟨fun _ _ => true, fun _ => true, true⟩
    ⟨"evil.com", true⟩ 9 true rfl rfl rfl rfl rfl rfl).1 rfl

/-- Agent globals before VM_INIT has completed. -/
def preInitGlobals : AgentGlobals := ⟨false, false, false, false, false, none, none⟩

/-- C6 (counterexample): a DNS call before readiness with the original
pointer absent returns a null result silently — no
unsupported-operation-style error, no exception of any kind, no event at
all — contradicting the claim that every wrapper invocation with a
missing original pointer signals a configuration error and never
silently returns null. -/
theorem C6_silent_null_counterexample :
    wrapped_lookupAllHostAddr preInitGlobals policyIpBlockedHostAllowed
        (some ⟨"example.com", true⟩) none true
      = (DnsOutcome.nullNoOriginal, env0) := by
  decide

/-- C6 (amended): on the fully intercepting DNS path (after readiness,
bridge registered, active configuration) a missing original resolver
raises an UnsupportedOperationException; but on the early-return paths —
before readiness, and on the no-active-configuration fast path with a
successful probe — a missing original yields a silent null with no
pending error; and the connect wrapper returns -2 with no exception in
its missing-original cases, both before readiness and on the intercepting
path with a null target. -/
theorem C6_missing_original_paths (g gEarly : AgentGlobals) (p q : Policy) (enc : Bool)
    (h1 : g.vmInitComplete = true) (h2 : g.contextClass = true)
    (h3 : g.hasActiveConfigMethod = true) (h5 : p.hasActiveConfiguration = true)
    (hE : gEarly.vmInitComplete = false) (hq : q.hasActiveConfiguration = false) :
    wrapped_lookupAllHostAddr g p none none enc
        = (DnsOutcome.errUnsupported,
           ⟨some JException.unsupportedOperation, [Event.policyHasActiveConfiguration]⟩)
    ∧ wrapped_lookupAllHostAddr gEarly p none none enc = (DnsOutcome.nullNoOriginal, env0)
    ∧ wrapped_lookupAllHostAddr g q none none true
        = (DnsOutcome.nullNoOriginal,
           ⟨none, [Event.policyHasActiveConfiguration, Event.encodingProbe true]⟩)
    ∧ wrapped_Net_connect0 gEarly p none 80 none enc = (ConnectOutcome.errNoOriginal, env0)
    ∧ wrapped_Net_connect0 g p none 80 none enc
        = (ConnectOutcome.errNoOriginal, ⟨none, [Event.policyHasActiveConfiguration]⟩) := by
  refine ⟨?_, ?_, ?_, ?_, ?_⟩ <;>
    simp [wrapped_lookupAllHostAddr, wrapped_Net_connect0, connectMain, dnsCheckAndForward,
      callHasActiveConfiguration, forwardDns, forwardConnect, releaseStrings, extractStrings,
      connectDecision, jstrChars, env0, h1, h2, h3, h5, hE, hq]

/-- Witness for C6 at the ready and pre-init globals with concrete
policies. -/
theorem C6_missing_original_paths_witness :
    readyGlobals.vmInitComplete = true
    ∧ preInitGlobals.vmInitComplete = false
    ∧ wrapped_lookupAllHostAddr readyGlobals ⟨fun _ _ => true, fun _ => true, true⟩
        none none true
        = (DnsOutcome.errUnsupported,
           ⟨some JException.unsupportedOperation, [Event.policyHasActiveConfiguration]⟩) := by
  refine ⟨rfl, rfl, ?_⟩
  exact (C6_missing_original_paths readyGlobals preInitGlobals
    ⟨fun _ _ => true, fun _ => true, true⟩ policyNoActiveConfig true
    rfl rfl rfl rfl rfl rfl).1

/-- A policy class on which all three decision methods resolve. -/
def fullClassSpec : ClassSpec := ⟨some 1, some 2, some 3⟩

/-- A policy class on which checkConnection does not resolve. -/
def noCheckClassSpec : ClassSpec := ⟨none, some 2, some 3⟩

/-- The bridge state and heap after a successful registration followed by
a registration whose checkConnection resolution fails. -/
def registerThenFail : BridgeState × RefHeap :=
  let r1 := registerWithAgent BridgeState.initial RefHeap.empty fullClassSpec true
  registerWithAgent r1.1 r1.2 noCheckClassSpec true

/-- C7 (counterexample): after a successful registration, a second call
to registerWithAgent whose checkConnection resolution fails leaves the
bridge half-populated — the class handle and checkConnection are cleared
but the isExplicitlyBlocked and hasActiveConfiguration method handles
from the first registration remain set — so the all-or-nothing invariant
fails over completed calls of the entry point. -/
theorem C7_half_populated_counterexample :
    registerThenFail.1
        = ⟨none, none, some 2, some 3⟩
    ∧ ¬ registerThenFail.1.fullyPopulated
    ∧ ¬ registerThenFail.1.fullyCleared := by
  refine ⟨by decide, by decide, by decide⟩

/-- C7 (amended): starting from the unregistered (fully cleared) bridge
state, any completed call of registerWithAgent leaves the bridge either
fully populated (all four fields set) or fully cleared: every resolution
failure rolls back every field this call set, and the fields not yet
assigned were already clear. -/
theorem C7_registration_atomic_from_cleared (s : BridgeState) (h : RefHeap)
    (c : ClassSpec) (refOk : Bool) (hs : s.fullyCleared) :
    (registerWithAgent s h c refOk).1.fullyPopulated
    ∨ (registerWithAgent s h c refOk).1.fullyCleared := by
  obtain ⟨e1, e2, e3, e4⟩ := hs
  cases refOk with
  | false =>
      right
      simp [registerWithAgent, newGlobalRef, BridgeState.fullyCleared, e1, e2, e3, e4]
  | true =>
      cases hcc : c.checkConnectionId with
      | none =>
          right
          simp [registerWithAgent, newGlobalRef, BridgeState.fullyCleared, hcc, e3, e4]
      | some i1 =>
          cases hib : c.isExplicitlyBlockedId with
          | none =>
              right
              simp [registerWithAgent, newGlobalRef, BridgeState.fullyCleared, hcc, hib, e4]
          | some i2 =>
              cases hha : c.hasActiveConfigId with
              | none =>
                  right
                  simp [registerWithAgent, newGlobalRef, BridgeState.fullyCleared,
                    hcc, hib, hha]
              | some i3 =>
                  left
                  simp [registerWithAgent, newGlobalRef, BridgeState.fullyPopulated,
                    hcc, hib, hha]

/-- Witness for C7 at the initial state with a fully resolving class. -/
theorem C7_registration_atomic_witness :
    BridgeState.initial.fullyCleared
    ∧ ((registerWithAgent BridgeState.initial RefHeap.empty fullClassSpec true).1.fullyPopulated
        ∨ (registerWithAgent BridgeState.initial RefHeap.empty
            fullClassSpec true).1.fullyCleared) := by
  refine ⟨by decide, ?_⟩
  exact C7_registration_atomic_from_cleared BridgeState.initial RefHeap.empty
    fullClassSpec true (by decide)

/-- The bridge states and heaps after one and after two registrations
with the same fully resolving policy class. -/
def registerTwiceSame : (BridgeState × RefHeap) × (BridgeState × RefHeap) :=
  let r1 := registerWithAgent BridgeState.initial RefHeap.empty fullClassSpec true
  (r1, registerWithAgent r1.1 r1.2 fullClassSpec true)

/-- C8 (counterexample): calling registerWithAgent twice with the same
policy class does not yield the same cached set as calling it once, and
it leaks: the second call caches a freshly created global class
reference (1) instead of the first one (0), while the first global
reference stays live in the reference table though nothing caches it any
more — an abandoned, unreleased global reference. -/
theorem C8_reregistration_leak_counterexample :
    registerTwiceSame.1.1.contextClass = some 0
    ∧ registerTwiceSame.2.1.contextClass = some 1
    ∧ registerTwiceSame.2.1 ≠ registerTwiceSame.1.1
    ∧ registerTwiceSame.2.2.live = [0, 1]
    ∧ 0 ∈ registerTwiceSame.2.2.live := by
  refine ⟨by decide, by decide, by decide, by decide, by decide⟩

/-- C8 (amended): a second registerWithAgent call with the same policy
class re-resolves the same three method IDs (the method fields are
unchanged), but replaces the cached class handle with a freshly created
global reference; the global reference created by the first call remains
live in the reference table while no longer cached — it is abandoned
unreleased. -/
theorem C8_reregistration_leaks (s : BridgeState) (h : RefHeap) (c : ClassSpec)
    (i1 i2 i3 : Nat) (hc1 : c.checkConnectionId = some i1)
    (hc2 : c.isExplicitlyBlockedId = some i2) (hc3 : c.hasActiveConfigId = some i3) :
    (registerWithAgent (registerWithAgent s h c true).1
        (registerWithAgent s h c true).2 c true).1.checkConnectionMethod
        = (registerWithAgent s h c true).1.checkConnectionMethod
    ∧ (registerWithAgent (registerWithAgent s h c true).1
        (registerWithAgent s h c true).2 c true).1.isExplicitlyBlockedMethod
        = (registerWithAgent s h c true).1.isExplicitlyBlockedMethod
    ∧ (registerWithAgent (registerWithAgent s h c true).1
        (registerWithAgent s h c true).2 c true).1.hasActiveConfigMethod
        = (registerWithAgent s h c true).1.hasActiveConfigMethod
    ∧ (registerWithAgent s h c true).1.contextClass = some h.next
    ∧ (registerWithAgent (registerWithAgent s h c true).1
        (registerWithAgent s h c true).2 c true).1.contextClass = some (h.next + 1)
    ∧ (registerWithAgent (registerWithAgent s h c true).1
        (registerWithAgent s h c true).2 c true).2.live
        = h.live ++ [h.next, h.next + 1]
    ∧ h.next ∈ (registerWithAgent (registerWithAgent s h c true).1
        (registerWithAgent s h c true).2 c true).2.live := by
  simp [registerWithAgent, newGlobalRef, hc1, hc2, hc3]

/-- Witness for C8 at the initial state with the fully resolving class. -/
theorem C8_reregistration_leaks_witness :
    fullClassSpec.checkConnectionId = some 1
    ∧ (registerWithAgent BridgeState.initial RefHeap.empty fullClassSpec true).1.contextClass
        = some RefHeap.empty.next := by
  refine ⟨rfl, ?_⟩
  exact (C8_reregistration_leaks BridgeState.initial RefHeap.empty fullClassSpec
    1 2 3 rfl rfl rfl).2.2.2.1

/-- C9 (confirmed): a DNS call with a null hostname, with the original
resolver present and the per-thread encoding probe succeeding, never
invokes checkConnection and passes through to the original resolver,
returning its result, in every readiness, registration and configuration
state. -/
theorem C9_null_hostname_passthrough (g : AgentGlobals) (p : Policy) (r : Int) :
    (wrapped_lookupAllHostAddr g p none (some r) true).1 = DnsOutcome.forwarded r
    ∧ ∀ hs port c, Event.policyCheckConnection hs port c
        ∉ (wrapped_lookupAllHostAddr g p none (some r) true).2.trace := by
  cases hv : g.vmInitComplete <;> cases hc : g.contextClass <;>
    cases hm : g.hasActiveConfigMethod <;> cases ha : p.hasActiveConfiguration <;>
    simp [wrapped_lookupAllHostAddr, dnsCheckAndForward, callHasActiveConfiguration,
      jstrChars, forwardDns, env0, hv, hc, hm, ha]

/-! Supporting lemmas for the block-path characterization of the connect
wrapper. -/

theorem connectDecision_none_none (g : AgentGlobals) (p : Policy) (port : Int) (e : Env) :
    connectDecision g p none none port e = (false, e) := by
  unfold connectDecision
  split
  · simp [isHostExplicitlyBlocked, jstrChars, tryAllowConnection]
  · rfl

theorem releaseStrings_none_none (e : Env) : releaseStrings none none e = e := rfl

theorem connectMain_outcomes (g : AgentGlobals) (p : Policy)
    (remote : Option RemoteInfo) (port : Int) (r : Int) (e : Env)
    (h : Event.callOriginal ∉ e.trace) :
    ((connectMain g p remote port (some r) e).1 = ConnectOutcome.errBlocked
      ∨ (connectMain g p remote port (some r) e).1 = ConnectOutcome.forwarded r)
    ∧ ((connectMain g p remote port (some r) e).1 = ConnectOutcome.errBlocked →
        (connectMain g p remote port (some r) e).2.pending.isSome = true
        ∧ Event.callOriginal ∉ (connectMain g p remote port (some r) e).2.trace) := by
  unfold connectMain
  dsimp only
  split
  · rename_i hcond
    have hrel :
        Event.callOriginal ∉
          (releaseStrings (extractStrings remote).1 (extractStrings remote).2
            (match remote with
             | some _ => connectDecision g p (extractStrings remote).1
                 (extractStrings remote).2 port e
             | none => (false, e)).2).trace := by
      apply releaseStrings_noCallOriginal
      cases remote with
      | none => exact h
      | some ri => exact connectDecision_noCallOriginal g p _ _ port e h
    exact ⟨Or.inl rfl, fun _ => ⟨(Bool.and_eq_true _ _ |>.mp hcond).2, hrel⟩⟩
  · refine ⟨Or.inr ?_, fun hb => ?_⟩
    · rfl
    · cases hb

theorem connectMain_pending_none (g : AgentGlobals) (p : Policy)
    (remote : Option RemoteInfo) (port : Int) (r : Int) (e : Env)
    (h : (connectMain g p remote port (some r) e).2.pending = none) :
    (connectMain g p remote port (some r) e).1 = ConnectOutcome.forwarded r := by
  unfold connectMain at h ⊢
  dsimp only at h ⊢
  split at h
  · rename_i hcond
    exfalso
    have hp := (Bool.and_eq_true _ _ |>.mp hcond).2
    dsimp only at h
    rw [h] at hp
    exact Bool.false_ne_true hp
  · rename_i hcond
    rw [if_neg hcond]
    rfl

theorem connectMain_remote_none (g : AgentGlobals) (p : Policy) (port : Int)
    (r : Int) (e : Env) :
    (connectMain g p none port (some r) e).1 = ConnectOutcome.forwarded r := by
  simp [connectMain, extractStrings, releaseStrings, jstrChars, forwardConnect]

theorem connectMain_no_ip (g : AgentGlobals) (p : Policy) (ri : RemoteInfo)
    (port : Int) (r : Int) (e : Env) (hip : ri.ip = none) :
    (connectMain g p (some ri) port (some r) e).1 = ConnectOutcome.forwarded r := by
  simp [connectMain, extractStrings, hip, jstrChars, connectDecision_none_none,
    releaseStrings, forwardConnect]

/-- C10 (confirmed): with the original connect present, the wrapper either
returns the block error or forwards and returns the original result; it
returns the block error only with a managed exception pending at return
and without having called the original; whenever no exception is pending
after the policy checks — in particular when the connection target is
null, or when the IP string could not be extracted (which also suppresses
hostname extraction) — it proceeds to the original connect. -/
theorem C10_block_only_with_pending (g : AgentGlobals) (p : Policy)
    (remote : Option RemoteInfo) (port : Int) (r : Int) (enc : Bool) :
    ((wrapped_Net_connect0 g p remote port (some r) enc).1 = ConnectOutcome.errBlocked
      ∨ (wrapped_Net_connect0 g p remote port (some r) enc).1 = ConnectOutcome.forwarded r)
    ∧ ((wrapped_Net_connect0 g p remote port (some r) enc).1 = ConnectOutcome.errBlocked →
        (wrapped_Net_connect0 g p remote port (some r) enc).2.pending.isSome = true
        ∧ Event.callOriginal ∉ (wrapped_Net_connect0 g p remote port (some r) enc).2.trace)
    ∧ ((wrapped_Net_connect0 g p remote port (some r) enc).2.pending = none →
        (wrapped_Net_connect0 g p remote port (some r) enc).1 = ConnectOutcome.forwarded r)
    ∧ (remote = none →
        (wrapped_Net_connect0 g p remote port (some r) enc).1 = ConnectOutcome.forwarded r)
    ∧ (∀ ri : RemoteInfo, remote = some ri → ri.ip = none →
        (wrapped_Net_connect0 g p remote port (some r) enc).1 = ConnectOutcome.forwarded r) := by
  unfold wrapped_Net_connect0
  split
  · simp [forwardConnect, env0]
  · split
    · simp [forwardConnect, env0]
    · split
      · simp [forwardConnect, env0]
      · dsimp only
        split
        · simp [forwardConnect, callHasActiveConfiguration, env0]
        · have hE : Event.callOriginal
              ∉ (callHasActiveConfiguration p env0).2.trace := by
            simp [callHasActiveConfiguration, env0]
          have h1 := connectMain_outcomes g p remote port r
            (callHasActiveConfiguration p env0).2 hE
          refine ⟨h1.1, h1.2, ?_, ?_, ?_⟩
          · exact connectMain_pending_none g p remote port r _
          · intro hr
            subst hr
            exact connectMain_remote_none g p port r _
          · intro ri hr hip
            subst hr
            exact connectMain_no_ip g p ri port r _ hip

/-- Witness for C9 at the ready globals with a concrete policy. -/
theorem C9_null_hostname_passthrough_witness :
    (wrapped_lookupAllHostAddr readyGlobals policyIpBlockedHostAllowed none (some 4) true).1
      = DnsOutcome.forwarded 4 :=
  (C9_null_hostname_passthrough readyGlobals policyIpBlockedHostAllowed 4).1

/-- Witness for C10: with a null connection target the wrapper forwards. -/
theorem C10_block_only_with_pending_witness :
    (wrapped_Net_connect0 readyGlobals policyIpBlockedHostAllowed none 80 (some 1) true).1
      = ConnectOutcome.forwarded 1 :=
  (C10_block_only_with_pending readyGlobals policyIpBlockedHostAllowed none 80 1
    true).2.2.2.1 rfl
